import Mathlib

/-
Shallow embedding of the Factual-AI claim-verification pipeline.

The embedded code is the verification orchestrator `verifyClaimsInText`
(src/src/app/actions.ts, second revision, lines 152-341) together with the
data model of src/src/lib/types.ts and the collaborator output schemas of
src/src/ai/flows/*.ts.  Every external collaborator (claim extractor,
quality evaluator, reasoner, trust analyzer, explanation synthesizer) is an
oracle: a pure function returning `Except String out`, where `.error msg`
models a thrown JS exception whose rendered message
(`error instanceof Error ? error.message : String(error)`) is `msg`.
JS numbers that hold scores in [0,1] are modelled as rationals.

The orchestrator revision that implements the confidence-gated sub-claim
expansion (spec section 4.7 step 4) and the propagation of
`correctedInformation` into the result is not present under src/ (only its
collaborator declarations and its UI consumer are); the definitions for it
further below carry doc comments starting `Modelled from the spec:`.
-/

/-- src/src/lib/types.ts line 3: the status of one claim verification. -/
inductive ClaimStatus where
  | supported
  | contradicted
  | neutral
  | pending
  | error
  deriving Repr, DecidableEq

/-- The verdict enum shared by the reasoner and the explanation flows
(src/src/ai/flows/sub-claim-reasoning.ts line 22,
src/src/ai/flows/ai-explanation.ts line 20). -/
inductive Verdict where
  | supported
  | contradicted
  | neutral
  deriving Repr, DecidableEq

/-- src/src/app/actions.ts lines 131-134: maps a reasoner verdict to a
claim status (the identity on the three shared constructors). -/
def mapVerdictToStatus : Verdict → ClaimStatus
  | .supported => .supported
  | .contradicted => .contradicted
  | .neutral => .neutral

/-- src/src/lib/types.ts lines 5-12: a cited source. -/
structure MockSource where
  id : String
  url : String
  title : String
  trustScore : Option ℚ
  shortSummary : Option String
  type : Option String
  deriving Repr, DecidableEq

/-- 'high' | 'medium' | 'low' rating used by several quality dimensions
(src/src/lib/types.ts lines 15-20). -/
inductive RatingHML where
  | high
  | medium
  | low
  deriving Repr, DecidableEq

/-- 'good' | 'fair' | 'poor' (src/src/lib/types.ts line 16). -/
inductive FluencyRating where
  | good
  | fair
  | poor
  deriving Repr, DecidableEq

/-- 'high' | 'medium' | 'low' | 'na' (src/src/lib/types.ts line 18). -/
inductive FaithfulnessRating where
  | high
  | medium
  | low
  | na
  deriving Repr, DecidableEq

/-- 'specific' | 'neutral' | 'broad' (src/src/lib/types.ts line 19). -/
inductive FocusRating where
  | specific
  | neutral
  | broad
  deriving Repr, DecidableEq

/-- src/src/lib/types.ts lines 14-22: the six quality dimensions plus a
free-text overall assessment. -/
structure ClaimQualityMetrics where
  atomicity : RatingHML
  fluency : FluencyRating
  decontextualization : RatingHML
  faithfulness : FaithfulnessRating
  focus : FocusRating
  checkworthiness : RatingHML
  overallAssessment : String
  deriving Repr, DecidableEq

/-- The `trustAnalysis` sub-object of a result
(src/src/lib/types.ts lines 30-34). -/
structure TrustAnalysisInfo where
  score : Option ℚ
  reasoning : Option String
  generatedSearchQuery : Option String
  deriving Repr, DecidableEq

/-- src/src/lib/types.ts lines 24-42: the terminal per-claim output. -/
structure ClaimVerificationResult where
  id : String
  claimText : String
  status : ClaimStatus
  explanation : Option String
  correctedInformation : Option String
  trustAnalysis : Option TrustAnalysisInfo
  sources : Option (List MockSource)
  isProcessing : Bool
  errorMessage : Option String
  claimQualityMetrics : Option ClaimQualityMetrics
  verdictConfidence : Option ℚ
  nuanceDescription : Option String
  originalTextContext : Option String
  deriving Repr, DecidableEq

/-- src/src/ai/flows/sub-claim-reasoning.ts lines 21-28: the reasoner
output schema (verdict, reasoning, required confidence, optional nuance,
optional candidate sub-claims; the flow defaults the latter to []). -/
structure SubClaimReasoningOutput where
  overallVerdict : Verdict
  reasoning : String
  verdictConfidence : ℚ
  nuanceDescription : Option String
  subClaimsForFurtherVerification : List String
  deriving Repr, DecidableEq

/-- src/src/ai/flows/trust-chain-analysis.ts lines 36-40: one search
result record (title, link, snippet). -/
structure SearchResult where
  title : String
  link : String
  snippet : String
  deriving Repr, DecidableEq

/-- src/src/ai/flows/trust-chain-analysis.ts lines 141-147: the trust
chain analysis output schema; `analyzedSources` and
`generatedSearchQuery` are optional in the TS type. -/
structure TrustChainAnalysisOutput where
  trustScore : ℚ
  reasoning : String
  analyzedSources : Option (List SearchResult)
  generatedSearchQuery : Option String
  deriving Repr, DecidableEq

/-- src/src/ai/flows/ai-explanation.ts lines 24-28: the explanation
synthesizer output schema. -/
structure ExplanationOutput where
  explanation : String
  correctedInformation : Option String
  deriving Repr, DecidableEq

/-- The external collaborators invoked by the orchestrator, as oracles.
`extractClaims` yields the (possibly missing) `claims` field of the
extraction response, matching the `!extractedClaimStrings` check at
src/src/app/actions.ts line 160. -/
structure Collaborators where
  extractClaims : String → Except String (Option (List String))
  evaluateClaimQuality : String → String → Except String ClaimQualityMetrics
  subClaimReasoning : String → Nat → Except String SubClaimReasoningOutput
  analyzeTrustChain : String → Except String TrustChainAnalysisOutput
  generateExplanation : String → String → Verdict → Except String ExplanationOutput

/-- A record of one collaborator invocation issued by the orchestrator,
used to state which stages ran.  The `subReason`/`subTrust` constructors
are issued only by the spec-modelled sub-claim expansion loop. -/
inductive CallEvent where
  | extract (text : String)
  | cacheCheck (claim : String)
  | quality (claim : String) (originalText : String)
  | reason (claim : String) (maxIterations : Nat)
  | trust (claim : String)
  | explain (claim : String) (verdict : Verdict)
  | subReason (subClaim : String) (maxIterations : Nat)
  | subTrust (subClaim : String)
  deriving Repr, DecidableEq

/-- True exactly on the events of the sub-claim expansion loop. -/
def CallEvent.isSubClaimCall : CallEvent → Bool
  | .subReason _ _ => true
  | .subTrust _ => true
  | _ => false

/-- The JS whitespace characters relevant to `String.prototype.trim`
(space, tab, line terminators, vertical tab, form feed, NBSP). -/
def jsIsWhitespace (c : Char) : Bool :=
  c = ' ' || c = '\t' || c = '\n' || c = '\r' || c = '\x0b' || c = '\x0c' || c = ' '

/-- `text.trim()` of JS: strip leading and trailing whitespace. -/
def jsTrim (s : String) : String :=
  String.mk (((s.data.dropWhile jsIsWhitespace).reverse.dropWhile jsIsWhitespace).reverse)

/-- `Number.prototype.toFixed(2)` on the scores appearing in the evidence
bundle, on rationals (round to two decimals, render with two digits). -/
def toFixed2 (q : ℚ) : String :=
  let n : ℤ := round (q * 100)
  let sign := if n < 0 then "-" else ""
  let m := n.natAbs
  let fp := m % 100
  sign ++ toString (m / 100) ++ "." ++ (if fp < 10 then "0" ++ toString fp else toString fp)

/-- `x?.toFixed(2) ?? 'N/A'` on an optional score. -/
def optFixed2 : Option ℚ → String
  | some q => toFixed2 q
  | none => "N/A"

/-- String interpolation of a 'high'/'medium'/'low' rating. -/
def ratingStr : RatingHML → String
  | .high => "high"
  | .medium => "medium"
  | .low => "low"

/-- String interpolation of a fluency rating. -/
def fluencyStr : FluencyRating → String
  | .good => "good"
  | .fair => "fair"
  | .poor => "poor"

/-- String interpolation of a faithfulness rating. -/
def faithfulnessStr : FaithfulnessRating → String
  | .high => "high"
  | .medium => "medium"
  | .low => "low"
  | .na => "na"

/-- String interpolation of a focus rating. -/
def focusStr : FocusRating → String
  | .specific => "specific"
  | .neutral => "neutral"
  | .broad => "broad"

/-- String interpolation of a verdict. -/
def verdictStr : Verdict → String
  | .supported => "supported"
  | .contradicted => "contradicted"
  | .neutral => "neutral"

/-- src/src/app/actions.ts lines 143-149: the smart cache placeholder,
which always reports a miss. -/
def checkSmartCache (_claimText : String) : Option ClaimVerificationResult :=
  none

/-- src/src/app/actions.ts line 174: the per-claim identifier
`claim-${Date.now()}-${index}`; `Date.now()` is the `now` parameter. -/
def claimIdOf (now index : Nat) : String :=
  "claim-" ++ toString now ++ "-" ++ toString index

/-- src/src/app/actions.ts lines 207-211: the fixed fallback quality
metrics substituted when the quality evaluator throws. -/
def fallbackQuality : ClaimQualityMetrics where
  atomicity := .low
  fluency := .poor
  decontextualization := .low
  faithfulness := .na
  focus := .broad
  checkworthiness := .low
  overallAssessment := "Could not evaluate claim quality due to an error."

/-- src/src/app/actions.ts lines 202-212: evaluate claim quality, falling
back to `fallbackQuality` if the evaluator throws. -/
def qualityStage (evalq : String → String → Except String ClaimQualityMetrics)
    (claimText text : String) : ClaimQualityMetrics :=
  match evalq claimText text with
  | .ok q => q
  | .error _ => fallbackQuality

/-- src/src/app/actions.ts lines 243-248: the placeholder source pushed
when the live search returned no specific sources. -/
def fallbackSource (claimId : String) : MockSource where
  id := "fallback-src-" ++ claimId
  url := "#"
  title := "No specific sources found by DuckDuckGo"
  trustScore := none
  shortSummary := some "The live search (DuckDuckGo) did not return specific sources for this claim."
  type := none

/-- src/src/app/actions.ts lines 253-258: the synthetic source pushed when
the trust analyzer throws. -/
def errSource (claimId : String) : MockSource where
  id := "err-src-" ++ claimId
  url := "#"
  title := "Trust Analysis Error"
  trustScore := none
  shortSummary := some "Could not perform detailed source analysis due to an error."
  type := none

/-- src/src/app/actions.ts lines 236-241: map the analyzed search results
to sources with ids `trust-src-${claimId}-${idx}`. -/
def sourcesFromSearch (claimId : String) : List SearchResult → Nat → List MockSource
  | [], _ => []
  | s :: rest, idx =>
      { id := "trust-src-" ++ claimId ++ "-" ++ toString idx
        url := s.link
        title := s.title
        trustScore := none
        shortSummary := some s.snippet
        type := none } :: sourcesFromSearch claimId rest (idx + 1)

/-- The local state produced by the trust chain analysis step:
`trustAnalysisData`, `actualSources`, `reasoningFromTrustAnalysis` and
`generatedQueryForTrustAnalysis` after src/src/app/actions.ts
lines 221-264 ran. -/
structure TrustStageOut where
  trustAnalysisData : Option TrustAnalysisInfo
  actualSources : List MockSource
  reasoningFromTrustAnalysis : String
  generatedQueryForTrustAnalysis : Option String
  deriving Repr, DecidableEq

/-- src/src/app/actions.ts lines 221-264: trust chain analysis with the
caught-failure placeholder (score 0, one error source). -/
def trustStage (trust : String → Except String TrustChainAnalysisOutput)
    (claimId claimText : String) : TrustStageOut :=
  match trust claimText with
  | .ok r =>
      { trustAnalysisData := some
          { score := some r.trustScore
            reasoning := some r.reasoning
            generatedSearchQuery := r.generatedSearchQuery }
        actualSources :=
          match r.analyzedSources with
          | some (s :: rest) => sourcesFromSearch claimId (s :: rest) 0
          | _ => [fallbackSource claimId]
        reasoningFromTrustAnalysis := r.reasoning
        generatedQueryForTrustAnalysis := r.generatedSearchQuery }
  | .error _ =>
      { trustAnalysisData := some
          { score := some 0
            reasoning := some "Error during trust analysis execution."
            generatedSearchQuery := some "Error in query generation/execution" }
        actualSources := [errSource claimId]
        reasoningFromTrustAnalysis :=
          "Could not perform detailed source analysis due to an error during trust chain analysis."
        generatedQueryForTrustAnalysis := none }

/-- src/src/app/actions.ts line 217:
`subClaimResult.reasoning || "Sub-claim analysis did not provide detailed reasoning."`
(the empty string is falsy in JS). -/
def explanationFromSubClaims (o : SubClaimReasoningOutput) : String :=
  if o.reasoning = "" then "Sub-claim analysis did not provide detailed reasoning."
  else o.reasoning

/-- src/src/app/actions.ts lines 267-283: the evidence bundle text handed
to the explanation synthesizer. -/
def evidenceBundle (claimId claimText : String) (q : ClaimQualityMetrics)
    (o : SubClaimReasoningOutput) (ts : TrustStageOut) : String :=
  let verdictConfidenceVal : Option ℚ := some o.verdictConfidence
  let e := "Claim: \"" ++ claimText ++ "\"\n"
  let e := e ++ "Claim Quality Assessment: " ++ q.overallAssessment ++
    "\n(Atomicity: " ++ ratingStr q.atomicity ++
    ", Fluency: " ++ fluencyStr q.fluency ++
    ", Decontextualization: " ++ ratingStr q.decontextualization ++
    ", Faithfulness: " ++ faithfulnessStr q.faithfulness ++
    ", Focus: " ++ focusStr q.focus ++
    ", Check-worthiness: " ++ ratingStr q.checkworthiness ++ ")\n\n"
  let e := e ++ "Verdict from Sub-Claim Analysis: " ++ verdictStr o.overallVerdict ++
    " (Confidence: " ++ optFixed2 verdictConfidenceVal ++
    ").\nReasoning from Sub-Claims: " ++ explanationFromSubClaims o ++ "\n"
  let e := e ++
    (match o.nuanceDescription with
     | some nd => if nd = "" then "" else "Nuance/Ambiguity: " ++ nd ++ "\n"
     | none => "")
  let e := e ++ "\nVerdict from Trust & Source Analysis (Trust Score: " ++
    optFixed2 (ts.trustAnalysisData.bind (fun t => t.score)) ++
    "):\nReasoning from Trust/Source Analysis: " ++ ts.reasoningFromTrustAnalysis ++ "\n"
  let e := e ++
    (match ts.generatedQueryForTrustAnalysis with
     | some gq => if gq = "" then "" else "Search Query Used for Trust Analysis: \"" ++ gq ++ "\"\n"
     | none => "")
  e ++
    (match ts.actualSources with
     | [] => "No specific key sources were highlighted by the trust analysis."
     | s :: _ =>
         if s.id ≠ "fallback-src-" ++ claimId ∧ s.id ≠ "err-src-" ++ claimId then
           "Key Sources Considered (from DuckDuckGo): " ++
             String.intercalate "; " ((ts.actualSources.map (fun x => x.title)).take 2) ++ "."
         else "No specific key sources were highlighted by the trust analysis.")

/-- src/src/app/actions.ts lines 285-295: the final explanation, falling
back to concatenated intermediate reasoning when the synthesizer throws. -/
def explanationStage (explain : String → String → Verdict → Except String ExplanationOutput)
    (claimText evidence : String) (o : SubClaimReasoningOutput) (ts : TrustStageOut) : String :=
  match explain claimText evidence o.overallVerdict with
  | .ok d => d.explanation
  | .error _ =>
      "Sub-Claim Reasoning: " ++ explanationFromSubClaims o ++
        "\n\nTrust Analysis Reasoning: " ++ ts.reasoningFromTrustAnalysis

/-- src/src/app/actions.ts lines 173-325: the per-claim pipeline (the body
of the `extractedClaimStrings.map` callback), instrumented with the list
of collaborator calls it issues.  The smart cache check precedes the
per-claim try block; the quality evaluation, reasoning, trust analysis and
explanation stages follow it, with only a reasoner failure reaching the
per-claim catch (lines 310-324). -/
def processClaim (C : Collaborators) (now : Nat) (text claimText : String)
    (index : Nat) : ClaimVerificationResult × List CallEvent :=
  let claimId := claimIdOf now index
  match checkSmartCache claimText with
  | some cachedResult =>
      ({ cachedResult with
          id := claimId
          isProcessing := false
          originalTextContext := some text },
       [.cacheCheck claimText])
  | none =>
    let claimQuality := qualityStage C.evaluateClaimQuality claimText text
    match C.subClaimReasoning claimText 2 with
    | .error e =>
        ({ id := claimId
           claimText := claimText
           status := .error
           explanation := some "An error occurred during the main verification pipeline for this claim."
           correctedInformation := none
           trustAnalysis := none
           sources := some []
           isProcessing := false
           errorMessage := some e
           claimQualityMetrics := some claimQuality
           verdictConfidence := none
           nuanceDescription := none
           originalTextContext := some text },
         [.cacheCheck claimText, .quality claimText text, .reason claimText 2])
    | .ok subClaimResult =>
        let ts := trustStage C.analyzeTrustChain claimId claimText
        let evidence := evidenceBundle claimId claimText claimQuality subClaimResult ts
        let finalExplanation := explanationStage C.generateExplanation claimText evidence subClaimResult ts
        ({ id := claimId
           claimText := claimText
           status := mapVerdictToStatus subClaimResult.overallVerdict
           explanation := some finalExplanation
           correctedInformation := none
           trustAnalysis := ts.trustAnalysisData
           sources := some ts.actualSources
           isProcessing := false
           errorMessage := none
           claimQualityMetrics := some claimQuality
           verdictConfidence := some subClaimResult.verdictConfidence
           nuanceDescription := subClaimResult.nuanceDescription
           originalTextContext := some text },
         [.cacheCheck claimText, .quality claimText text, .reason claimText 2,
          .trust claimText, .explain claimText subClaimResult.overallVerdict])

/-- src/src/app/actions.ts lines 172-326: `extractedClaimStrings.map`
with the running index, collecting each per-claim result and call list. -/
def processAll (C : Collaborators) (now : Nat) (text : String) :
    List String → Nat → List (ClaimVerificationResult × List CallEvent)
  | [], _ => []
  | c :: rest, index => processClaim C now text c index :: processAll C now text rest (index + 1)

/-- src/src/app/actions.ts lines 160-170: the singleton result for an
input from which no claims were extracted. -/
def noClaimsFoundResult (text : String) : ClaimVerificationResult where
  id := "no_claims_found"
  claimText := "No verifiable claims found in the provided text."
  status := .neutral
  explanation := some "The system could not identify any specific statements to verify. Please try rephrasing or providing more detailed text."
  correctedInformation := none
  trustAnalysis := none
  sources := some []
  isProcessing := false
  errorMessage := none
  claimQualityMetrics := none
  verdictConfidence := none
  nuanceDescription := none
  originalTextContext := some text

/-- src/src/app/actions.ts lines 330-339: the singleton result returned by
the top-level catch (extraction failure). -/
def errorGeneralResult (text msg : String) : ClaimVerificationResult where
  id := "error-general"
  claimText := "Overall Input Text Processing Error"
  status := .error
  explanation := some "An error occurred while trying to process the input text and extract claims."
  correctedInformation := none
  trustAnalysis := none
  sources := some []
  isProcessing := false
  errorMessage := some msg
  claimQualityMetrics := none
  verdictConfidence := none
  nuanceDescription := none
  originalTextContext := some text

/-- src/src/app/actions.ts lines 152-341: the batch entry point.  Every
collaborator exception is threaded explicitly, so the function is total:
no path propagates an exception to the caller.  The second component is
the list of collaborator calls issued (per-claim call lists concatenated
in extraction order). -/
def verifyClaimsInText (C : Collaborators) (now : Nat) (text : String) :
    List ClaimVerificationResult × List CallEvent :=
  if jsTrim text = "" then ([], [])
  else
    match C.extractClaims text with
    | .error e => ([errorGeneralResult text e], [.extract text])
    | .ok none => ([noClaimsFoundResult text], [.extract text])
    | .ok (some []) => ([noClaimsFoundResult text], [.extract text])
    | .ok (some (c :: cs)) =>
        let pairs := processAll C now text (c :: cs) 0
        (pairs.map Prod.fst, CallEvent.extract text :: (pairs.map Prod.snd).flatten)

/-- Modelled from the spec: section 3, the `ReasoningOutcome` record used
by the orchestrator revision with sub-claim expansion, which is not under
src/ (only the reasoner declaration `SubClaimReasoningOutputSchema` and
the evidence-bundle consumer prompt are).  Confidence is kept optional
because the expansion branch of section 4.7 step 4 explicitly treats an
undefined confidence. -/
structure ReasoningOutcome where
  verdict : Verdict
  reasoning : String
  confidence : Option ℚ
  nuanceDescription : Option String
  subClaims : List String
  deriving Repr, DecidableEq

/-- Modelled from the spec: the collaborators of the orchestrator revision
with sub-claim expansion (sections 4.1-4.5); the quality, trust and
explanation contracts coincide with the ones found under src/. -/
structure SpecCollaborators where
  extract : String → Except String (Option (List String))
  evaluateQuality : String → String → Except String ClaimQualityMetrics
  reason : String → Nat → Except String ReasoningOutcome
  analyzeTrust : String → Except String TrustChainAnalysisOutput
  explain : String → String → Verdict → Except String ExplanationOutput

/-- Modelled from the spec: section 4.7 step 4, the expansion guard:
candidate sub-claims exist AND (confidence is undefined OR
confidence < 0.85). -/
def shouldExpandSubClaims (subClaims : List String) (confidence : Option ℚ) : Bool :=
  !subClaims.isEmpty &&
    (match confidence with
     | none => true
     | some c => decide (c < (85 / 100 : ℚ)))

/-- Modelled from the spec: section 4.7 step 4, the verification of one
candidate sub-claim — a reasoner call with `maxIterations = 1` followed by
a trust analyzer call, each failure caught and rendered as an inline error
note in the bundle block.  Returns the bundle block and the calls
issued. -/
def verifySubClaim (S : SpecCollaborators) (sc : String) : String × List CallEvent :=
  match S.reason sc 1 with
  | .error e =>
      ("--- Verifying Sub-Claim: \"" ++ sc ++ "\" ---\n" ++
         "  Error during sub-claim reasoning: " ++ e ++ "\n" ++
         "--- End Sub-Claim: \"" ++ sc ++ "\" ---\n",
       [.subReason sc 1])
  | .ok so =>
      let base := "--- Verifying Sub-Claim: \"" ++ sc ++ "\" ---\n" ++
        "  Verdict for Sub-Claim: " ++ verdictStr so.verdict ++
        " (Confidence: " ++ optFixed2 so.confidence ++ ")\n" ++
        "  Reasoning: " ++ so.reasoning ++ "\n"
      match S.analyzeTrust sc with
      | .error te =>
          (base ++ "  Error during sub-claim trust analysis: " ++ te ++ "\n" ++
             "--- End Sub-Claim: \"" ++ sc ++ "\" ---\n",
           [.subReason sc 1, .subTrust sc])
      | .ok t =>
          (base ++ "  Trust Analysis for Sub-Claim: Score " ++ toFixed2 t.trustScore ++
             ". Query: \"" ++ (t.generatedSearchQuery.getD sc) ++ "\". Sources: " ++
             String.intercalate "; " (((t.analyzedSources.getD []).map (fun x => x.title)).take 2) ++
             "\n--- End Sub-Claim: \"" ++ sc ++ "\" ---\n",
           [.subReason sc 1, .subTrust sc])

/-- Modelled from the spec: section 4.7 step 4, the sequential sub-claim
loop, run only when `shouldExpandSubClaims` holds; returns the structured
bundle section and the concatenated calls issued. -/
def expandSubClaims (S : SpecCollaborators) (subClaims : List String)
    (confidence : Option ℚ) : String × List CallEvent :=
  if shouldExpandSubClaims subClaims confidence then
    let parts := subClaims.map (verifySubClaim S)
    ("[SUB-CLAIM VERIFICATION PHASE]\n" ++ String.join (parts.map Prod.fst) ++
       "[END OF SUB-CLAIM VERIFICATION PHASE]\n",
     (parts.map Prod.snd).flatten)
  else ("", [])

/-- `reasoning` with its falsy-empty fallback, for a spec
`ReasoningOutcome` (mirrors src/src/app/actions.ts line 217). -/
def explanationFromOutcome (o : ReasoningOutcome) : String :=
  if o.reasoning = "" then "Sub-claim analysis did not provide detailed reasoning."
  else o.reasoning

/-- Modelled from the spec: the evidence bundle of the revision with
sub-claim expansion — the bundle of src/src/app/actions.ts lines 267-283
with the per-sub-claim section of section 4.7 step 4 appended after the
main-claim reasoning summary and before the trust findings. -/
def specEvidence (claimId claimText : String) (q : ClaimQualityMetrics)
    (o : ReasoningOutcome) (subBlock : String) (ts : TrustStageOut) : String :=
  let e := "Claim: \"" ++ claimText ++ "\"\n"
  let e := e ++ "Claim Quality Assessment: " ++ q.overallAssessment ++
    "\n(Atomicity: " ++ ratingStr q.atomicity ++
    ", Fluency: " ++ fluencyStr q.fluency ++
    ", Decontextualization: " ++ ratingStr q.decontextualization ++
    ", Faithfulness: " ++ faithfulnessStr q.faithfulness ++
    ", Focus: " ++ focusStr q.focus ++
    ", Check-worthiness: " ++ ratingStr q.checkworthiness ++ ")\n\n"
  let e := e ++ "Verdict from Sub-Claim Analysis: " ++ verdictStr o.verdict ++
    " (Confidence: " ++ optFixed2 o.confidence ++
    ").\nReasoning from Sub-Claims: " ++ explanationFromOutcome o ++ "\n"
  let e := e ++
    (match o.nuanceDescription with
     | some nd => if nd = "" then "" else "Nuance/Ambiguity: " ++ nd ++ "\n"
     | none => "")
  let e := e ++ subBlock
  let e := e ++ "\nVerdict from Trust & Source Analysis (Trust Score: " ++
    optFixed2 (ts.trustAnalysisData.bind (fun t => t.score)) ++
    "):\nReasoning from Trust/Source Analysis: " ++ ts.reasoningFromTrustAnalysis ++ "\n"
  let e := e ++
    (match ts.generatedQueryForTrustAnalysis with
     | some gq => if gq = "" then "" else "Search Query Used for Trust Analysis: \"" ++ gq ++ "\"\n"
     | none => "")
  e ++
    (match ts.actualSources with
     | [] => "No specific key sources were highlighted by the trust analysis."
     | s :: _ =>
         if s.id ≠ "fallback-src-" ++ claimId ∧ s.id ≠ "err-src-" ++ claimId then
           "Key Sources Considered (from DuckDuckGo): " ++
             String.intercalate "; " ((ts.actualSources.map (fun x => x.title)).take 2) ++ "."
         else "No specific key sources were highlighted by the trust analysis.")

/-- Modelled from the spec: section 4.7 steps 1-8, the per-claim pipeline
of the orchestrator revision with sub-claim expansion and
`correctedInformation` propagation (section 4.5: the synthesizer decides
whether a correction is warranted, and its `correctedInformation` output
is attached to the result).  Everything except step 4 and the corrected
information mirrors `processClaim` above. -/
def processClaimSpec (S : SpecCollaborators) (now : Nat) (text claimText : String)
    (index : Nat) : ClaimVerificationResult × List CallEvent :=
  let claimId := claimIdOf now index
  match checkSmartCache claimText with
  | some cachedResult =>
      ({ cachedResult with
          id := claimId
          isProcessing := false
          originalTextContext := some text },
       [.cacheCheck claimText])
  | none =>
    let claimQuality := qualityStage S.evaluateQuality claimText text
    match S.reason claimText 2 with
    | .error e =>
        ({ id := claimId
           claimText := claimText
           status := .error
           explanation := some "An error occurred during the main verification pipeline for this claim."
           correctedInformation := none
           trustAnalysis := none
           sources := some []
           isProcessing := false
           errorMessage := some e
           claimQualityMetrics := some claimQuality
           verdictConfidence := none
           nuanceDescription := none
           originalTextContext := some text },
         [.cacheCheck claimText, .quality claimText text, .reason claimText 2])
    | .ok o =>
        let sub := expandSubClaims S o.subClaims o.confidence
        let ts := trustStage S.analyzeTrust claimId claimText
        let evidence := specEvidence claimId claimText claimQuality o sub.fst ts
        let final :=
          match S.explain claimText evidence o.verdict with
          | .ok d => (d.explanation, d.correctedInformation)
          | .error _ =>
              ("Sub-Claim Reasoning: " ++ explanationFromOutcome o ++
                 "\n\nTrust Analysis Reasoning: " ++ ts.reasoningFromTrustAnalysis,
               none)
        ({ id := claimId
           claimText := claimText
           status := mapVerdictToStatus o.verdict
           explanation := some final.fst
           correctedInformation := final.snd
           trustAnalysis := ts.trustAnalysisData
           sources := some ts.actualSources
           isProcessing := false
           errorMessage := none
           claimQualityMetrics := some claimQuality
           verdictConfidence := o.confidence
           nuanceDescription := o.nuanceDescription
           originalTextContext := some text },
         [.cacheCheck claimText, .quality claimText text, .reason claimText 2] ++
           sub.snd ++ [.trust claimText, .explain claimText o.verdict])

/-- Modelled from the spec: the indexed fan-out over extracted claims of
the revision with sub-claim expansion (identical in shape to
`processAll`). -/
def processAllSpec (S : SpecCollaborators) (now : Nat) (text : String) :
    List String → Nat → List (ClaimVerificationResult × List CallEvent)
  | [], _ => []
  | c :: rest, index => processClaimSpec S now text c index :: processAllSpec S now text rest (index + 1)

/-- Modelled from the spec: the batch entry point of the revision with
sub-claim expansion; same batch-level shell as `verifyClaimsInText`
(empty-input short circuit, no-claims sentinel, top-level catch). -/
def verifyClaimsInTextSpec (S : SpecCollaborators) (now : Nat) (text : String) :
    List ClaimVerificationResult × List CallEvent :=
  if jsTrim text = "" then ([], [])
  else
    match S.extract text with
    | .error e => ([errorGeneralResult text e], [.extract text])
    | .ok none => ([noClaimsFoundResult text], [.extract text])
    | .ok (some []) => ([noClaimsFoundResult text], [.extract text])
    | .ok (some (c :: cs)) =>
        let pairs := processAllSpec S now text (c :: cs) 0
        (pairs.map Prod.fst, CallEvent.extract text :: (pairs.map Prod.snd).flatten)

/-- A well-behaved collaborator bundle used as a concrete base point for
evaluating the pipeline: quality metrics for a clear claim. -/
def sampleQuality : ClaimQualityMetrics where
  atomicity := .high
  fluency := .good
  decontextualization := .high
  faithfulness := .high
  focus := .specific
  checkworthiness := .high
  overallAssessment := "A clear, atomic, check-worthy claim."

/-- A high-confidence supported reasoner output with no candidate
sub-claims. -/
def sampleReasonOut : SubClaimReasoningOutput where
  overallVerdict := .supported
  reasoning := "Well documented geography."
  verdictConfidence := 95 / 100
  nuanceDescription := none
  subClaimsForFurtherVerification := []

/-- A successful trust chain analysis output with one analyzed source. -/
def sampleTrustOut : TrustChainAnalysisOutput where
  trustScore := 9 / 10
  reasoning := "Multiple authoritative sources agree."
  analyzedSources := some
    [{ title := "Wikipedia - France"
       link := "https://en.wikipedia.org/wiki/France"
       snippet := "Paris is the capital of France." }]
  generatedSearchQuery := some "Paris France capital"

/-- A successful explanation output with no correction. -/
def sampleExplanation : ExplanationOutput where
  explanation := "The claim is supported by the gathered evidence."
  correctedInformation := none

/-- A collaborator bundle on which every stage succeeds. -/
def sampleCollab : Collaborators where
  extractClaims := fun _ => .ok (some ["Paris is in France."])
  evaluateClaimQuality := fun _ _ => .ok sampleQuality
  subClaimReasoning := fun _ _ => .ok sampleReasonOut
  analyzeTrustChain := fun _ => .ok sampleTrustOut
  generateExplanation := fun _ _ _ => .ok sampleExplanation

/-- `sampleCollab` with a reasoner that always throws. -/
def reasonFailCollab : Collaborators :=
  { sampleCollab with subClaimReasoning := fun _ _ => .error "reasoner unavailable" }

/-- `sampleCollab` with a reasoner that throws an exception whose rendered
message is the empty string (in JS, `throw new Error("")`). -/
def emptyMsgCollab : Collaborators :=
  { sampleCollab with subClaimReasoning := fun _ _ => .error "" }

/-- `sampleCollab` with a quality evaluator that always throws. -/
def qualityFailCollab : Collaborators :=
  { sampleCollab with evaluateClaimQuality := fun _ _ => .error "quality evaluator unavailable" }

/-- `sampleCollab` with a trust analyzer that always throws. -/
def trustFailCollab : Collaborators :=
  { sampleCollab with analyzeTrustChain := fun _ => .error "trust analyzer unavailable" }

/-- `sampleCollab` with an extractor whose response has no claims field. -/
def extractNoneCollab : Collaborators :=
  { sampleCollab with extractClaims := fun _ => .ok none }

/-- The per-invocation environment model of the same source code: every
collaborator call in src/src/app/actions.ts is an effectful asynchronous
invocation, so two calls of the same collaborator may resolve differently
(the call issued while processing one claim may throw while the call
issued for another claim — even one with identical text — succeeds).  An
environment assigns to each batch position the collaborator outcomes
observed by the per-claim pipeline running at that position; a constant
environment recovers the single-bundle model (see
`verifyClaimsInTextEnv_const`). -/
def processAllEnv (E : Nat → Collaborators) (now : Nat) (text : String) :
    List String → Nat → List (ClaimVerificationResult × List CallEvent)
  | [], _ => []
  | c :: rest, index =>
      processClaim (E index) now text c index :: processAllEnv E now text rest (index + 1)

/-- src/src/app/actions.ts lines 152-341 under the per-invocation
environment model; the extraction call is a single invocation and gets
its own oracle. -/
def verifyClaimsInTextEnv (extractO : String → Except String (Option (List String)))
    (E : Nat → Collaborators) (now : Nat) (text : String) :
    List ClaimVerificationResult × List CallEvent :=
  if jsTrim text = "" then ([], [])
  else
    match extractO text with
    | .error e => ([errorGeneralResult text e], [.extract text])
    | .ok none => ([noClaimsFoundResult text], [.extract text])
    | .ok (some []) => ([noClaimsFoundResult text], [.extract text])
    | .ok (some (c :: cs)) =>
        let pairs := processAllEnv E now text (c :: cs) 0
        (pairs.map Prod.fst, CallEvent.extract text :: (pairs.map Prod.snd).flatten)

/-- An extraction outcome yielding the same claim text twice (a
duplicate-text batch). -/
def dupExtract : String → Except String (Option (List String)) :=
  fun _ => .ok (some ["The sky is green.", "The sky is green."])

/-- An environment in which the reasoner invocation issued at batch
position 0 throws and every other invocation succeeds. -/
def envFailAtZero : Nat → Collaborators :=
  fun idx => if idx = 0 then reasonFailCollab else sampleCollab

/-- The same environment with the position-0 failure removed. -/
def envAllOk : Nat → Collaborators :=
  fun _ => sampleCollab

/-- A low-confidence outcome with one candidate sub-claim. -/
def lowConfOutcome : ReasoningOutcome where
  verdict := .neutral
  reasoning := "The claim is speculative."
  confidence := some (3 / 10)
  nuanceDescription := some "Multiple unverified components."
  subClaims := ["The moon is made of green cheese."]

/-- A spec-pipeline collaborator bundle whose reasoner reports low
confidence and a candidate sub-claim. -/
def specLowConfCollab : SpecCollaborators where
  extract := fun _ => .ok (some ["The moon is made of green cheese and mined by aliens."])
  evaluateQuality := fun _ _ => .ok sampleQuality
  reason := fun _ _ => .ok lowConfOutcome
  analyzeTrust := fun _ => .ok sampleTrustOut
  explain := fun _ _ _ => .ok sampleExplanation

/-- A confidently contradicted outcome with no candidate sub-claims. -/
def contradictedOutcome : ReasoningOutcome where
  verdict := .contradicted
  reasoning := "Scientific evidence contradicts the claim."
  confidence := some (95 / 100)
  nuanceDescription := none
  subClaims := []

/-- An explanation output carrying corrected information. -/
def correctedExplanation : ExplanationOutput where
  explanation := "The claim is contradicted by the evidence."
  correctedInformation := some "The sky is blue."

/-- A spec-pipeline collaborator bundle whose synthesizer supplies a
correction for a contradicted claim. -/
def specCorrectionCollab : SpecCollaborators where
  extract := fun _ => .ok (some ["The sky is green."])
  evaluateQuality := fun _ _ => .ok sampleQuality
  reason := fun _ _ => .ok contradictedOutcome
  analyzeTrust := fun _ => .ok sampleTrustOut
  explain := fun _ _ _ => .ok correctedExplanation

theorem processAll_length (C : Collaborators) (now : Nat) (text : String)
    (cs : List String) (i : Nat) : (processAll C now text cs i).length = cs.length := by
  induction cs generalizing i with
  | nil => rfl
  | cons c rest ih => simp [processAll, ih]

theorem processAll_getElem (C : Collaborators) (now : Nat) (text : String)
    (cs : List String) (i j : Nat) :
    (processAll C now text cs i)[j]? = (cs[j]?).map (fun c => processClaim C now text c (i + j)) := by
  induction cs generalizing i j with
  | nil => simp [processAll]
  | cons c rest ih =>
      cases j with
      | zero => simp [processAll]
      | succ j =>
          simp only [processAll, List.getElem?_cons_succ, ih]
          have h : i + 1 + j = i + (j + 1) := by omega
          rw [h]

theorem processAll_mem (C : Collaborators) (now : Nat) (text : String) (cs : List String) (i : Nat)
    (x : ClaimVerificationResult × List CallEvent) (hx : x ∈ processAll C now text cs i) :
    ∃ c idx, x = processClaim C now text c idx := by
  induction cs generalizing i with
  | nil => simp [processAll] at hx
  | cons c rest ih =>
      simp only [processAll, List.mem_cons] at hx
      rcases hx with h | h
      · exact ⟨c, i, h⟩
      · exact ih (i + 1) h

theorem processClaim_claimText (C : Collaborators) (now : Nat) (text c : String) (idx : Nat) :
    (processClaim C now text c idx).fst.claimText = c := by
  unfold processClaim checkSmartCache
  cases h : C.subClaimReasoning c 2 <;> simp [h]

theorem jsTrim_of_whitespace (text : String)
    (hws : ∀ c ∈ text.data, jsIsWhitespace c = true) : jsTrim text = "" := by
  unfold jsTrim
  have h1 : text.data.dropWhile jsIsWhitespace = [] := List.dropWhile_eq_nil_iff.mpr hws
  rw [h1]
  rfl

theorem verify_extract_cons (C : Collaborators) (now : Nat) (text : String)
    (c : String) (cs : List String) (htrim : jsTrim text ≠ "")
    (hext : C.extractClaims text = .ok (some (c :: cs))) :
    (verifyClaimsInText C now text).fst = (processAll C now text (c :: cs) 0).map Prod.fst := by
  unfold verifyClaimsInText
  rw [if_neg htrim, hext]

theorem processClaim_reason_error (C : Collaborators) (now : Nat) (text ct msg : String)
    (idx : Nat) (hthrow : C.subClaimReasoning ct 2 = .error msg) :
    (processClaim C now text ct idx).fst.status = .error ∧
    (processClaim C now text ct idx).fst.errorMessage = some msg ∧
    (processClaim C now text ct idx).fst.sources = some [] ∧
    (processClaim C now text ct idx).snd =
      [CallEvent.cacheCheck ct, CallEvent.quality ct text, CallEvent.reason ct 2] := by
  unfold processClaim checkSmartCache
  simp [hthrow]

theorem processAllEnv_getElem (E : Nat → Collaborators) (now : Nat) (text : String)
    (cs : List String) (i j : Nat) :
    (processAllEnv E now text cs i)[j]? =
      (cs[j]?).map (fun c => processClaim (E (i + j)) now text c (i + j)) := by
  induction cs generalizing i j with
  | nil => simp [processAllEnv]
  | cons c rest ih =>
      cases j with
      | zero => simp [processAllEnv]
      | succ j =>
          simp only [processAllEnv, List.getElem?_cons_succ, ih]
          have h : i + 1 + j = i + (j + 1) := by omega
          rw [h]

theorem processAllEnv_const (C : Collaborators) (now : Nat) (text : String)
    (cs : List String) (i : Nat) :
    processAllEnv (fun _ => C) now text cs i = processAll C now text cs i := by
  induction cs generalizing i with
  | nil => rfl
  | cons c rest ih => simp [processAllEnv, processAll, ih]

theorem verifyClaimsInTextEnv_const (C : Collaborators) (now : Nat) (text : String) :
    verifyClaimsInTextEnv C.extractClaims (fun _ => C) now text =
      verifyClaimsInText C now text := by
  unfold verifyClaimsInTextEnv verifyClaimsInText
  by_cases h : jsTrim text = ""
  · rw [if_pos h, if_pos h]
  · rw [if_neg h, if_neg h]
    cases hext : C.extractClaims text with
    | error e => rfl
    | ok oc =>
        cases oc with
        | none => rfl
        | some claims =>
            cases claims with
            | nil => rfl
            | cons c cs => simp [processAllEnv_const]

theorem verifyEnv_extract_cons (extractO : String → Except String (Option (List String)))
    (E : Nat → Collaborators) (now : Nat) (text : String)
    (c : String) (cs : List String) (htrim : jsTrim text ≠ "")
    (hext : extractO text = .ok (some (c :: cs))) :
    (verifyClaimsInTextEnv extractO E now text).fst =
      (processAllEnv E now text (c :: cs) 0).map Prod.fst := by
  unfold verifyClaimsInTextEnv
  rw [if_neg htrim, hext]

theorem mapVerdict_ne_error (v : Verdict) : mapVerdictToStatus v ≠ ClaimStatus.error := by
  cases v <;> simp [mapVerdictToStatus]

theorem processClaim_invariant (C : Collaborators) (now : Nat) (text ct : String) (idx : Nat) :
    (processClaim C now text ct idx).fst.isProcessing = false ∧
    (processClaim C now text ct idx).fst.status ≠ ClaimStatus.pending := by
  unfold processClaim checkSmartCache
  cases h : C.subClaimReasoning ct 2 with
  | error e => simp [h]
  | ok o =>
      simp [h]
      cases o.overallVerdict <;> simp [mapVerdictToStatus]

theorem shouldExpand_iff (subClaims : List String) (confidence : Option ℚ) :
    shouldExpandSubClaims subClaims confidence = true ↔
      (subClaims ≠ [] ∧ (confidence = none ∨ confidence.getD 1 < (85 / 100 : ℚ))) := by
  unfold shouldExpandSubClaims
  cases confidence with
  | none => simp [List.isEmpty_iff]
  | some c => simp [List.isEmpty_iff]

theorem verifySubClaim_events_sub (S : SpecCollaborators) (sc : String) :
    (verifySubClaim S sc).snd.any CallEvent.isSubClaimCall = true := by
  unfold verifySubClaim
  cases h : S.reason sc 1 with
  | error e => simp [h, CallEvent.isSubClaimCall]
  | ok so =>
      cases h2 : S.analyzeTrust sc with
      | error te => simp [h, h2, CallEvent.isSubClaimCall]
      | ok t => simp [h, h2, CallEvent.isSubClaimCall]

theorem expandSubClaims_events (S : SpecCollaborators) (subClaims : List String)
    (confidence : Option ℚ) :
    (expandSubClaims S subClaims confidence).snd.any CallEvent.isSubClaimCall =
      shouldExpandSubClaims subClaims confidence := by
  unfold expandSubClaims
  by_cases h : shouldExpandSubClaims subClaims confidence = true
  · rw [if_pos h]
    simp only [h]
    cases subClaims with
    | nil => simp [shouldExpandSubClaims] at h
    | cons sc rest =>
        simp [List.any_append, verifySubClaim_events_sub]
  · rw [if_neg h]
    simp at h
    simp [h]

theorem processClaimSpec_any_sub (S : SpecCollaborators) (now : Nat) (text ct : String)
    (idx : Nat) (o : ReasoningOutcome) (hr : S.reason ct 2 = .ok o) :
    (processClaimSpec S now text ct idx).snd.any CallEvent.isSubClaimCall =
      shouldExpandSubClaims o.subClaims o.confidence := by
  unfold processClaimSpec checkSmartCache
  simp [hr, List.any_append, CallEvent.isSubClaimCall, expandSubClaims_events]

/-- Claim C1: in the spec-modelled pipeline, for a batch whose extraction
yields at least one claim and whose reasoner succeeds on claim i with
outcome o, sub-claim reasoning or sub-claim trust-analysis calls are
issued for that claim if and only if o supplies at least one candidate
sub-claim AND (the verdict confidence is undefined or strictly below
0.85); in particular, when the confidence is at least 0.85 no such call is
issued. -/
theorem claim1_subclaim_expansion_gate (S : SpecCollaborators) (now : Nat) (text : String)
    (claims : List String) (i : Nat) (ci : String) (o : ReasoningOutcome)
    (htrim : jsTrim text ≠ "")
    (hext : S.extract text = .ok (some claims))
    (hci : claims[i]? = some ci)
    (hreason : S.reason ci 2 = .ok o) :
    ((processClaimSpec S now text ci i).snd.any CallEvent.isSubClaimCall = true ↔
      (o.subClaims ≠ [] ∧ (o.confidence = none ∨ o.confidence.getD 1 < (85 / 100 : ℚ)))) ∧
    ((85 / 100 : ℚ) ≤ o.confidence.getD 0 →
      (processClaimSpec S now text ci i).snd.any CallEvent.isSubClaimCall = false) := by
  have hA := processClaimSpec_any_sub S now text ci i o hreason
  constructor
  · rw [hA]
    exact shouldExpand_iff o.subClaims o.confidence
  · intro hc
    rw [hA]
    cases hcf : o.confidence with
    | none =>
        rw [hcf] at hc
        norm_num at hc
    | some cv =>
        rw [hcf] at hc
        simp only [Option.getD] at hc
        unfold shouldExpandSubClaims
        simp [not_lt.mpr hc]

/-- Witness for C1: on a concrete low-confidence reasoner outcome with one
candidate sub-claim, the expansion branch issues sub-claim calls. -/
theorem claim1_subclaim_expansion_gate_witness :
    (processClaimSpec specLowConfCollab 0 "The moon is made of green cheese and mined by aliens."
        "The moon is made of green cheese and mined by aliens." 0).snd.any
      CallEvent.isSubClaimCall = true :=
  (claim1_subclaim_expansion_gate specLowConfCollab 0
      "The moon is made of green cheese and mined by aliens."
      ["The moon is made of green cheese and mined by aliens."] 0
      "The moon is made of green cheese and mined by aliens." lowConfOutcome
      (by decide) rfl rfl rfl).1.mpr
    ⟨by decide, Or.inr (by norm_num [lowConfOutcome, Option.getD])⟩

/-- Counterexample to C2 as stated: a reasoner can throw a JS `Error`
whose message renders as the empty string, in which case
`errorMessage = error.message` is the empty string and the required
non-empty errorMessage fails, even though the status is error. -/
theorem claim2_empty_error_message_counterexample :
    emptyMsgCollab.subClaimReasoning "Paris is in France." 2 = .error "" ∧
    ((verifyClaimsInText emptyMsgCollab 0 "Paris is in France.").fst.map
        (fun r => (r.status, r.errorMessage))) = [(ClaimStatus.error, some "")] :=
  ⟨rfl, rfl⟩

/-- Claim C2 (amended): in the per-invocation environment model, when the
reasoner invocation issued for the claim at position i throws with
rendered message msg, the result at position i has status error,
errorMessage equal to msg (hence non-empty whenever the thrown message
is), and an empty sources list; no downstream stage (trust analysis,
explanation synthesis) runs for that claim; and the result at every other
batch position — including positions holding a claim with identical text
— is exactly what it would be in an environment that differs only at
position i (i.e. had claim i's reasoner invocation not thrown). -/
theorem claim2_reasoner_failure_isolation
    (extractO : String → Except String (Option (List String)))
    (E Ex : Nat → Collaborators) (now : Nat) (text : String) (claims : List String)
    (i : Nat) (ci msg : String)
    (htrim : jsTrim text ≠ "")
    (hext : extractO text = .ok (some claims))
    (hci : claims[i]? = some ci)
    (hthrow : (E i).subClaimReasoning ci 2 = .error msg)
    (hagree : ∀ j : Nat, j ≠ i → E j = Ex j) :
    ((verifyClaimsInTextEnv extractO E now text).fst[i]?).map
        (fun r => (r.status, r.errorMessage, r.sources)) =
      some (ClaimStatus.error, some msg, some []) ∧
    (processClaim (E i) now text ci i).snd =
      [CallEvent.cacheCheck ci, CallEvent.quality ci text, CallEvent.reason ci 2] ∧
    (∀ j : Nat, j ≠ i →
      (verifyClaimsInTextEnv extractO E now text).fst[j]? =
        (verifyClaimsInTextEnv extractO Ex now text).fst[j]?) := by
  obtain ⟨h1, h2, h3, h4⟩ := processClaim_reason_error (E i) now text ci msg i hthrow
  cases claims with
  | nil => simp at hci
  | cons c cs =>
      have hres := verifyEnv_extract_cons extractO E now text c cs htrim hext
      have hresx := verifyEnv_extract_cons extractO Ex now text c cs htrim hext
      refine ⟨?_, h4, ?_⟩
      · rw [hres, List.getElem?_map, processAllEnv_getElem]
        simp only [Nat.zero_add]
        rw [hci]
        simp [h1, h2, h3]
      · intro j hne
        rw [hres, hresx, List.getElem?_map, List.getElem?_map,
          processAllEnv_getElem, processAllEnv_getElem]
        simp only [Nat.zero_add]
        rw [hagree j hne]

/-- Witness for C2 (amended): a concrete batch of two claims with
identical text whose reasoner invocation throws at position 0 only; the
first result is the error result, its pipeline stops at the reasoner, and
the second result equals the one produced by the environment without the
failure. -/
theorem claim2_reasoner_failure_isolation_witness :
    ((verifyClaimsInTextEnv dupExtract envFailAtZero 0 "The sky is green. The sky is green.").fst[0]?).map
        (fun r => (r.status, r.errorMessage, r.sources)) =
      some (ClaimStatus.error, some "reasoner unavailable", some []) ∧
    (processClaim (envFailAtZero 0) 0 "The sky is green. The sky is green." "The sky is green." 0).snd =
      [CallEvent.cacheCheck "The sky is green.",
       CallEvent.quality "The sky is green." "The sky is green. The sky is green.",
       CallEvent.reason "The sky is green." 2] ∧
    (verifyClaimsInTextEnv dupExtract envFailAtZero 0 "The sky is green. The sky is green.").fst[1]? =
      (verifyClaimsInTextEnv dupExtract envAllOk 0 "The sky is green. The sky is green.").fst[1]? := by
  have h := claim2_reasoner_failure_isolation dupExtract envFailAtZero envAllOk 0
    "The sky is green. The sky is green."
    ["The sky is green.", "The sky is green."] 0 "The sky is green." "reasoner unavailable"
    (by decide) rfl rfl (by rfl)
    (by
      intro j hj
      simp [envFailAtZero, envAllOk, hj])
  exact ⟨h.1, h.2.1, h.2.2 1 (by decide)⟩

/-- Claim C3: for an input text that is empty or consists only of
whitespace, verifyClaimsInText returns the empty list and issues no
collaborator call at all. -/
theorem claim3_whitespace_input_yields_empty (C : Collaborators) (now : Nat) (text : String)
    (hws : ∀ c ∈ text.data, jsIsWhitespace c = true) :
    verifyClaimsInText C now text = ([], []) := by
  unfold verifyClaimsInText
  rw [if_pos (jsTrim_of_whitespace text hws)]

/-- Witness for C3: a single space yields the empty result list and an
empty call list. -/
theorem claim3_whitespace_input_yields_empty_witness :
    verifyClaimsInText sampleCollab 0 " " = ([], []) :=
  claim3_whitespace_input_yields_empty sampleCollab 0 " " (by decide)

/-- Claim C4: for a non-blank input on which the extractor returns zero
claims or a missing claim list, the result is a singleton whose only
element has id no_claims_found and status neutral. -/
theorem claim4_no_claims_sentinel (C : Collaborators) (now : Nat) (text : String)
    (htrim : jsTrim text ≠ "")
    (hext : C.extractClaims text = .ok none ∨ C.extractClaims text = .ok (some [])) :
    (verifyClaimsInText C now text).fst = [noClaimsFoundResult text] ∧
    (noClaimsFoundResult text).id = "no_claims_found" ∧
    (noClaimsFoundResult text).status = ClaimStatus.neutral := by
  refine ⟨?_, rfl, rfl⟩
  unfold verifyClaimsInText
  rw [if_neg htrim]
  rcases hext with h | h <;> rw [h]

/-- Witness for C4: a concrete extractor response with a missing claim
list produces the sentinel. -/
theorem claim4_no_claims_sentinel_witness :
    (verifyClaimsInText extractNoneCollab 0 "Some text.").fst = [noClaimsFoundResult "Some text."] ∧
    (noClaimsFoundResult "Some text.").id = "no_claims_found" ∧
    (noClaimsFoundResult "Some text.").status = ClaimStatus.neutral :=
  claim4_no_claims_sentinel extractNoneCollab 0 "Some text." (by decide) (Or.inl rfl)

/-- Claim C5: for a non-empty extracted claim list, the result list has
the same length and the result at each index is the one produced for the
extracted claim at that index (extraction order is preserved; in this
pure model the fan-out is a map over the extraction order, so completion
order cannot reorder results). -/
theorem claim5_order_preserved (C : Collaborators) (now : Nat) (text : String)
    (claims : List String)
    (htrim : jsTrim text ≠ "")
    (hext : C.extractClaims text = .ok (some claims))
    (hne : claims ≠ []) :
    (verifyClaimsInText C now text).fst.length = claims.length ∧
    (∀ (j : Nat) (cj : String), claims[j]? = some cj →
      (verifyClaimsInText C now text).fst[j]? = some (processClaim C now text cj j).fst ∧
      ((verifyClaimsInText C now text).fst[j]?).map (fun r => r.claimText) = some cj) := by
  cases claims with
  | nil => exact absurd rfl hne
  | cons c cs =>
      have hres := verify_extract_cons C now text c cs htrim hext
      constructor
      · rw [hres]
        simp [processAll_length]
      · intro j cj hcj
        rw [hres, List.getElem?_map, processAll_getElem, hcj]
        simp [Option.map, processClaim_claimText]

/-- Witness for C5: a concrete one-claim batch has a result list of
length one whose single element is the per-claim result at index 0. -/
theorem claim5_order_preserved_witness :
    (verifyClaimsInText sampleCollab 0 "Paris is in France.").fst.length =
      (["Paris is in France."] : List String).length ∧
    (verifyClaimsInText sampleCollab 0 "Paris is in France.").fst[0]? =
      some (processClaim sampleCollab 0 "Paris is in France." "Paris is in France." 0).fst :=
  have h := claim5_order_preserved sampleCollab 0 "Paris is in France." ["Paris is in France."]
    (by decide) rfl (by decide)
  ⟨h.1, (h.2 0 "Paris is in France." rfl).1⟩

/-- Claim C6: when the quality evaluator throws but the reasoner
succeeds, the result has a non-error status, carries exactly the fixed
fallback quality assessment (atomicity low, fluency poor,
decontextualization low, faithfulness na, focus broad, checkworthiness
low, with the fixed overall-assessment text), and the pipeline continues
through the trust and explanation stages. -/
theorem claim6_quality_fallback (C : Collaborators) (now : Nat) (text ct qe : String)
    (idx : Nat) (o : SubClaimReasoningOutput)
    (hq : C.evaluateClaimQuality ct text = .error qe)
    (hr : C.subClaimReasoning ct 2 = .ok o) :
    (processClaim C now text ct idx).fst.status ≠ ClaimStatus.error ∧
    (processClaim C now text ct idx).fst.claimQualityMetrics = some
      { atomicity := .low, fluency := .poor, decontextualization := .low,
        faithfulness := .na, focus := .broad, checkworthiness := .low,
        overallAssessment := "Could not evaluate claim quality due to an error." } ∧
    (processClaim C now text ct idx).snd =
      [CallEvent.cacheCheck ct, CallEvent.quality ct text, CallEvent.reason ct 2,
       CallEvent.trust ct, CallEvent.explain ct o.overallVerdict] := by
  unfold processClaim checkSmartCache qualityStage
  simp [hq, hr, mapVerdict_ne_error, fallbackQuality]

/-- Witness for C6: a concrete bundle whose quality evaluator throws
still reaches a non-error status with the fixed fallback metrics. -/
theorem claim6_quality_fallback_witness :
    (processClaim qualityFailCollab 0 "Paris is in France." "Paris is in France." 0).fst.status ≠
      ClaimStatus.error ∧
    (processClaim qualityFailCollab 0 "Paris is in France." "Paris is in France." 0).fst.claimQualityMetrics =
      some { atomicity := .low, fluency := .poor, decontextualization := .low,
             faithfulness := .na, focus := .broad, checkworthiness := .low,
             overallAssessment := "Could not evaluate claim quality due to an error." } :=
  have h := claim6_quality_fallback qualityFailCollab 0 "Paris is in France." "Paris is in France."
    "quality evaluator unavailable" 0 sampleReasonOut rfl rfl
  ⟨h.1, h.2.1⟩

/-- Claim C7: when the trust analyzer throws but the reasoner succeeds,
the result carries a trust analysis with score 0, a sources list holding
exactly one entry tagged as an error source (id prefixed err-src, title
Trust Analysis Error), and the status is still non-error. -/
theorem claim7_trust_error_placeholder (C : Collaborators) (now : Nat) (text ct te : String)
    (idx : Nat) (o : SubClaimReasoningOutput)
    (ht : C.analyzeTrustChain ct = .error te)
    (hr : C.subClaimReasoning ct 2 = .ok o) :
    (processClaim C now text ct idx).fst.trustAnalysis =
      some { score := some 0
             reasoning := some "Error during trust analysis execution."
             generatedSearchQuery := some "Error in query generation/execution" } ∧
    (processClaim C now text ct idx).fst.sources = some [errSource (claimIdOf now idx)] ∧
    (errSource (claimIdOf now idx)).id = "err-src-" ++ claimIdOf now idx ∧
    (errSource (claimIdOf now idx)).title = "Trust Analysis Error" ∧
    (processClaim C now text ct idx).fst.status ≠ ClaimStatus.error := by
  refine ⟨?_, ?_, rfl, rfl, ?_⟩ <;>
    · unfold processClaim checkSmartCache trustStage
      simp [ht, hr, mapVerdict_ne_error]

/-- Witness for C7: a concrete bundle whose trust analyzer throws yields
the zero-score placeholder and the single error source. -/
theorem claim7_trust_error_placeholder_witness :
    (processClaim trustFailCollab 0 "Paris is in France." "Paris is in France." 0).fst.trustAnalysis =
      some { score := some 0
             reasoning := some "Error during trust analysis execution."
             generatedSearchQuery := some "Error in query generation/execution" } ∧
    (processClaim trustFailCollab 0 "Paris is in France." "Paris is in France." 0).fst.sources =
      some [errSource (claimIdOf 0 0)] ∧
    (processClaim trustFailCollab 0 "Paris is in France." "Paris is in France." 0).fst.status ≠
      ClaimStatus.error :=
  have h := claim7_trust_error_placeholder trustFailCollab 0 "Paris is in France."
    "Paris is in France." "trust analyzer unavailable" 0 sampleReasonOut rfl rfl
  ⟨h.1, h.2.1, h.2.2.2.2⟩

/-- Counterexample to C8 as stated: for the empty input text the function
returns the empty list, so the result list is not non-empty for every
input. -/
theorem claim8_empty_input_counterexample :
    (verifyClaimsInText sampleCollab 0 "").fst = [] := rfl

/-- Claim C8 (amended): for every input whose trimmed text is non-empty
and any collaborator behavior, verifyClaimsInText returns a non-empty,
well-formed result list (the model is a total function, so no exception
reaches the caller): a thrown extraction error yields the singleton
error-general result, zero or missing extracted claims yield the
singleton no_claims_found result, and a non-empty extraction yields one
result per claim; whitespace-only input instead yields the empty list
(see the counterexample). -/
theorem claim8_batch_totality (C : Collaborators) (now : Nat) (text : String)
    (htrim : jsTrim text ≠ "") :
    (verifyClaimsInText C now text).fst ≠ [] ∧
    (∀ e : String, C.extractClaims text = .error e →
      (verifyClaimsInText C now text).fst = [errorGeneralResult text e]) ∧
    ((C.extractClaims text = .ok none ∨ C.extractClaims text = .ok (some [])) →
      (verifyClaimsInText C now text).fst = [noClaimsFoundResult text]) ∧
    (∀ claims : List String, C.extractClaims text = .ok (some claims) → claims ≠ [] →
      (verifyClaimsInText C now text).fst.length = claims.length) := by
  refine ⟨?_, ?_, ?_, ?_⟩
  · unfold verifyClaimsInText
    rw [if_neg htrim]
    cases hext : C.extractClaims text with
    | error e => simp
    | ok oc =>
        cases oc with
        | none => simp
        | some claims =>
            cases claims with
            | nil => simp
            | cons c cs => simp [processAll]
  · intro e hext
    unfold verifyClaimsInText
    rw [if_neg htrim, hext]
  · intro hext
    unfold verifyClaimsInText
    rw [if_neg htrim]
    rcases hext with h | h <;> rw [h]
  · intro claims hext hne
    cases claims with
    | nil => exact absurd rfl hne
    | cons c cs =>
        rw [verify_extract_cons C now text c cs htrim hext]
        simp [processAll_length]

/-- Witness for C8 (amended): a concrete non-blank input yields a
non-empty result list. -/
theorem claim8_batch_totality_witness :
    (verifyClaimsInText sampleCollab 0 "Paris is in France.").fst ≠ [] :=
  (claim8_batch_totality sampleCollab 0 "Paris is in France." (by decide)).1

/-- Claim C9: in the spec-modelled pipeline, for a claim whose reasoner
outcome is contradicted (so the final status judges it false) and whose
explanation synthesizer returns a correctedInformation text, the returned
result includes exactly that corrected-information text. -/
theorem claim9_corrected_information_propagated (S : SpecCollaborators) (now : Nat)
    (text ct : String) (idx : Nat)
    (o : ReasoningOutcome) (eo : ExplanationOutput) (t : String)
    (hr : S.reason ct 2 = .ok o)
    (hv : o.verdict = .contradicted)
    (hexp : S.explain ct
      (specEvidence (claimIdOf now idx) ct (qualityStage S.evaluateQuality ct text) o
        (expandSubClaims S o.subClaims o.confidence).fst
        (trustStage S.analyzeTrust (claimIdOf now idx) ct)) o.verdict = .ok eo)
    (hcorr : eo.correctedInformation = some t) :
    (processClaimSpec S now text ct idx).fst.correctedInformation = some t ∧
    (processClaimSpec S now text ct idx).fst.status = ClaimStatus.contradicted := by
  rw [hv] at hexp
  unfold processClaimSpec checkSmartCache
  simp [hr, hexp, hcorr, hv, mapVerdictToStatus]

/-- Witness for C9: a concrete contradicted claim whose synthesizer
supplies a correction ends with that correction on the result. -/
theorem claim9_corrected_information_propagated_witness :
    (processClaimSpec specCorrectionCollab 0 "The sky is green." "The sky is green." 0).fst.correctedInformation =
      some "The sky is blue." ∧
    (processClaimSpec specCorrectionCollab 0 "The sky is green." "The sky is green." 0).fst.status =
      ClaimStatus.contradicted :=
  claim9_corrected_information_propagated specCorrectionCollab 0 "The sky is green."
    "The sky is green." 0 contradictedOutcome correctedExplanation "The sky is blue."
    rfl rfl rfl rfl

/-- Claim C10: every result in any batch output has isProcessing false
and a status other than pending, on every success, fallback, sentinel and
error path. -/
theorem claim10_never_pending (C : Collaborators) (now : Nat) (text : String)
    (r : ClaimVerificationResult) (hrm : r ∈ (verifyClaimsInText C now text).fst) :
    r.isProcessing = false ∧ r.status ≠ ClaimStatus.pending := by
  unfold verifyClaimsInText at hrm
  by_cases htrim : jsTrim text = ""
  · rw [if_pos htrim] at hrm
    simp at hrm
  · rw [if_neg htrim] at hrm
    cases hext : C.extractClaims text with
    | error e =>
        rw [hext] at hrm
        simp at hrm
        subst hrm
        exact ⟨rfl, by simp [errorGeneralResult]⟩
    | ok oc =>
        rw [hext] at hrm
        cases oc with
        | none =>
            simp at hrm
            subst hrm
            exact ⟨rfl, by simp [noClaimsFoundResult]⟩
        | some claims =>
            cases claims with
            | nil =>
                simp at hrm
                subst hrm
                exact ⟨rfl, by simp [noClaimsFoundResult]⟩
            | cons c cs =>
                simp only [List.mem_map] at hrm
                obtain ⟨x, hx, hxr⟩ := hrm
                obtain ⟨cx, idx, hceq⟩ := processAll_mem C now text (c :: cs) 0 x hx
                subst hxr
                rw [hceq]
                exact processClaim_invariant C now text cx idx

/-- Witness for C10: the error result of a concrete failing batch has
isProcessing false and a non-pending status. -/
theorem claim10_never_pending_witness :
    (processClaim reasonFailCollab 0 "The sky is green." "Paris is in France." 0).fst.isProcessing = false ∧
    (processClaim reasonFailCollab 0 "The sky is green." "Paris is in France." 0).fst.status ≠
      ClaimStatus.pending :=
  claim10_never_pending reasonFailCollab 0 "The sky is green."
    (processClaim reasonFailCollab 0 "The sky is green." "Paris is in France." 0).fst
    (List.mem_singleton_self _)
